import Mathlib

/-!
Shallow embedding of the `signature_checker` module
(`core/bin/server/src/signature_checker.rs`): the signature-verification
gate of the transaction-admission pipeline.  Channels are modelled by an
oracle for the authorization authority (the "eth watch") together with an
explicit trace of the queries issued, and the worker's reply delivery is
modelled by an explicit aliveness flag on each request's reply channel.
Byte strings are lists of naturals.
-/

/-- Typed verification errors, from `mempool::TxAddError` (only the four
variants this module produces are modelled; the enum itself lives outside
this repository's sources). -/
inductive TxAddError
  | ChangePkNotAuthorized
  | IncorrectEthSignature
  | EIP1271SignatureVerificationFail
  | IncorrectTx
deriving DecidableEq

/-- Modelled from the spec: a direct-scheme ("recoverable") Ethereum
signature.  The implementation (`zksync_types`) is outside this
repository's sources; per the spec, a direct signature determines the
signing account recoverable from the signed message bytes, and recovery
can fail, hence a function to `Option`. -/
structure PackedEthSignature where
  signature_recover_signer : List Nat → Option Nat

/-- External signature value, tagged with its scheme
(`zksync_types::tx::TxEthSignature`): direct recoverable signature or
opaque contract-based (EIP-1271) signature bytes. -/
inductive TxEthSignature
  | EthereumSignature (sig : PackedEthSignature)
  | EIP1271Signature (sig : List Nat)

/-- External signature data attached to a request
(`zksync_types::tx::EthSignData`): a signature and the signed message.
The message is kept as its byte string (Rust reads it via `as_bytes()`
and its byte length via `len()`). -/
structure EthSignData where
  signature : TxEthSignature
  message : List Nat

/-- A `ChangePubKey` transaction, the distinguished pubkey-change kind:
account, nonce, new-key fingerprint and an optional embedded Ethereum
signature (only its presence is inspected by this module).  The `correct`
field is modelled from the spec: the outcome of the transaction's native
self-consistency check, whose implementation (`zksync_types`) is outside
this repository's sources. -/
structure ChangePubKey where
  account : Nat
  nonce : Nat
  new_pk_hash : List Nat
  eth_signature : Option PackedEthSignature
  correct : Bool

/-- Any other transaction kind: only its owning account and the outcome of
its native self-consistency check are relevant to this module.  The
`correct` field is modelled from the spec as for `ChangePubKey`. -/
structure OtherTx where
  account : Nat
  correct : Bool

/-- The polymorphic transaction type (`zksync_types::ZkSyncTx`), reduced to
the distinction this module dispatches on: the pubkey-change kind versus
every other kind. -/
inductive ZkSyncTx
  | ChangePubKey (change_pk : ChangePubKey)
  | Other (tx : OtherTx)

/-- The transaction's owning account (`ZkSyncTx::account()`). -/
def ZkSyncTx.account : ZkSyncTx → Nat
  | ZkSyncTx.ChangePubKey change_pk => change_pk.account
  | ZkSyncTx.Other tx => tx.account

/-- Modelled from the spec: the transaction's native self-consistency check
(`ZkSyncTx::check_correctness`, structural + cryptographic correctness
independent of the external signature layer); its implementation lives in
`zksync_types`, outside this repository's sources. -/
def ZkSyncTx.check_correctness : ZkSyncTx → Bool
  | ZkSyncTx.ChangePubKey change_pk => change_pk.correct
  | ZkSyncTx.Other tx => tx.correct

/-- A transaction paired with its optional external signature data
(`zksync_types::SignedZkSyncTx`). -/
structure SignedZkSyncTx where
  tx : ZkSyncTx
  eth_sign_data : Option EthSignData

/-- Wrapper on a `ZkSyncTx` which guarantees that the transaction was
checked and the signatures associated with it are correct; the underlying
value is accessible only through `into_inner` / `inner`. -/
structure VerifiedTx where
  val : SignedZkSyncTx

/-- Takes the `SignedZkSyncTx` out of the wrapper (`VerifiedTx::into_inner`). -/
def VerifiedTx.into_inner (v : VerifiedTx) : SignedZkSyncTx :=
  v.val

/-- Reference to the inner value (`VerifiedTx::inner`). -/
def VerifiedTx.inner (v : VerifiedTx) : SignedZkSyncTx :=
  v.val

/-- Request for the signature check (`VerifyTxSignatureRequest`); its
one-shot reply channel is modelled at the worker level (`WorkerRequest`). -/
structure VerifyTxSignatureRequest where
  tx : ZkSyncTx
  eth_sign_data : Option EthSignData

/-- The two queries this module sends to the eth watch
(`EthWatchRequest::IsPubkeyChangeAuthorized` and
`EthWatchRequest::CheckEIP1271Signature`), without their reply channels. -/
inductive EthWatchRequest
  | IsPubkeyChangeAuthorized (address : Nat) (nonce : Nat) (pubkey_hash : List Nat)
  | CheckEIP1271Signature (address : Nat) (message : List Nat) (signature : List Nat)
deriving DecidableEq

/-- Modelled from the spec: the authorization authority (eth watch) as an
oracle answering the two query kinds.  A `none` answer models the
authority's one-shot reply channel being closed before an answer arrives
(the calling side treats this as a fatal infrastructure fault). -/
structure EthWatchOracle where
  isPubkeyChangeAuthorized : Nat → Nat → List Nat → Option Bool
  checkEIP1271Signature : Nat → List Nat → List Nat → Option (Except String Bool)

/-- Outcome of running a verification step: a value, a typed verification
error returned to the caller, or a fatal fault (`expect`-induced process
panic), which is never delivered as a typed error. -/
inductive VerifyOutcome (α : Type)
  | ok (a : α)
  | err (e : TxAddError)
  | fatal (msg : String)

/-- Byte string of the canonical personal-message header
`"\x19Ethereum Signed Message:\n"`. -/
def ethMessageHeader : List Nat :=
  ("\x19Ethereum Signed Message:\n").data.map Char.toNat

/-- Bytes of the decimal representation of a natural number, as produced by
Rust's `format!` of a length. -/
def decimalBytes (n : Nat) : List Nat :=
  (toString n).data.map Char.toNat

/-- Second half of `verify_eth_signature`: the external-signature check
over `request.eth_sign_data` (the `if let Some(sign_data)` block),
accumulating the query trace started by the delegated-authorization
branch. -/
def checkEthSignData (request : VerifyTxSignatureRequest) (eth_watch : EthWatchOracle)
    (trace : List EthWatchRequest) : VerifyOutcome Unit × List EthWatchRequest :=
  match request.eth_sign_data with
  | none => (VerifyOutcome.ok (), trace)
  | some sign_data =>
    match sign_data.signature with
    | TxEthSignature.EthereumSignature packed_signature =>
      match packed_signature.signature_recover_signer sign_data.message with
      | none => (VerifyOutcome.err TxAddError.IncorrectEthSignature, trace)
      | some signer_account =>
        if signer_account = request.tx.account then
          (VerifyOutcome.ok (), trace)
        else
          (VerifyOutcome.err TxAddError.IncorrectEthSignature, trace)
    | TxEthSignature.EIP1271Signature signature =>
      let message := ethMessageHeader ++ decimalBytes sign_data.message.length
        ++ sign_data.message
      let q := EthWatchRequest.CheckEIP1271Signature request.tx.account message signature
      match eth_watch.checkEIP1271Signature request.tx.account message signature with
      | none =>
        (VerifyOutcome.fatal "Failed receiving response from eth watch", trace ++ [q])
      | some (Except.error _) =>
        (VerifyOutcome.err TxAddError.EIP1271SignatureVerificationFail, trace ++ [q])
      | some (Except.ok signature_correct) =>
        if signature_correct then (VerifyOutcome.ok (), trace ++ [q])
        else (VerifyOutcome.err TxAddError.IncorrectTx, trace ++ [q])

/-- Verifies the Ethereum signature of the transaction
(`verify_eth_signature`): the delegated-authorization branch for a
pubkey-change without an embedded signature, followed by the
external-signature branch.  Returns the outcome together with the trace of
queries issued to the eth watch. -/
def verify_eth_signature (request : VerifyTxSignatureRequest) (eth_watch : EthWatchOracle) :
    VerifyOutcome Unit × List EthWatchRequest :=
  match request.tx with
  | ZkSyncTx.ChangePubKey change_pk =>
    match change_pk.eth_signature with
    | none =>
      let q := EthWatchRequest.IsPubkeyChangeAuthorized change_pk.account change_pk.nonce
        change_pk.new_pk_hash
      match eth_watch.isPubkeyChangeAuthorized change_pk.account change_pk.nonce
          change_pk.new_pk_hash with
      | none => (VerifyOutcome.fatal "Err response from eth watch", [q])
      | some is_authorized =>
        if is_authorized then checkEthSignData request eth_watch [q]
        else (VerifyOutcome.err TxAddError.ChangePkNotAuthorized, [q])
    | some _ => checkEthSignData request eth_watch []
  | ZkSyncTx.Other _ => checkEthSignData request eth_watch []

/-- Verifies the correctness of the ZkSync transaction
(`verify_tx_correctness`). -/
def verify_tx_correctness (tx : ZkSyncTx) : Except TxAddError ZkSyncTx :=
  if !tx.check_correctness then Except.error TxAddError.IncorrectTx
  else Except.ok tx

/-- Checks the transaction correctness by verifying its Ethereum signature
(if required) and ZkSync signature (`VerifiedTx::verify`): the Ethereum
signature check, then the native correctness check on a clone of the
request's transaction, then wrapping. -/
def VerifiedTx.verify (request : VerifyTxSignatureRequest) (eth_watch : EthWatchOracle) :
    VerifyOutcome VerifiedTx × List EthWatchRequest :=
  match verify_eth_signature request eth_watch with
  | (VerifyOutcome.ok _, trace) =>
    match verify_tx_correctness request.tx with
    | Except.error e => (VerifyOutcome.err e, trace)
    | Except.ok tx =>
      (VerifyOutcome.ok ⟨{ tx := tx, eth_sign_data := request.eth_sign_data }⟩, trace)
  | (VerifyOutcome.err e, trace) => (VerifyOutcome.err e, trace)
  | (VerifyOutcome.fatal msg, trace) => (VerifyOutcome.fatal msg, trace)

/-- The outcome of the native correctness check alone, as `VerifiedTx.verify`
reports it: `ok` wrapping the request's transaction and signature data when
`check_correctness` passes, `IncorrectTx` otherwise. -/
def nativeOutcome (request : VerifyTxSignatureRequest) : VerifyOutcome VerifiedTx :=
  if request.tx.check_correctness then
    VerifyOutcome.ok ⟨{ tx := request.tx, eth_sign_data := request.eth_sign_data }⟩
  else
    VerifyOutcome.err TxAddError.IncorrectTx

/-- A request as the worker sees it: the verification request plus whether
the caller still holds the reply-receiving end of the request's one-shot
reply channel. -/
structure WorkerRequest where
  request : VerifyTxSignatureRequest
  receiverAlive : Bool

/-- What one spawned task delivers on its request's reply channel
(`request.response.send(resp).unwrap_or_default()`): nothing when the
task died on a fatal fault before sending, nothing when the receiver was
dropped (the send failure is ignored), the result otherwise. -/
def taskDelivery (eth_watch : EthWatchOracle) (wr : WorkerRequest) :
    Option (Except TxAddError VerifiedTx) :=
  match (VerifiedTx.verify wr.request eth_watch).1 with
  | VerifyOutcome.fatal _ => none
  | VerifyOutcome.ok v => if wr.receiverAlive then some (Except.ok v) else none
  | VerifyOutcome.err e => if wr.receiverAlive then some (Except.error e) else none

/-- Main signature check requests handler (`checker_routine`): drains the
inbound queue, one delivery per request, in the model sequentially (the
per-request results do not interact, so task interleaving is immaterial). -/
def checker_routine (eth_watch : EthWatchOracle) :
    List WorkerRequest → List (Option (Except TxAddError VerifiedTx))
  | [] => []
  | wr :: rest => taskDelivery eth_watch wr :: checker_routine eth_watch rest

/-- The verification request as the caller observes it after `verify`
returns: `verify` borrows the request immutably, clones `tx` and
`eth_sign_data`, and hands only the clone to `verify_tx_correctness` (the
sole consumer taking a transaction by value), so the request itself is
rebuilt unchanged. -/
def requestAfterVerify (request : VerifyTxSignatureRequest) (eth_watch : EthWatchOracle) :
    VerifyTxSignatureRequest :=
  let clonedTx := request.tx
  let _ := verify_eth_signature request eth_watch
  let _ := verify_tx_correctness clonedTx
  { tx := request.tx, eth_sign_data := request.eth_sign_data }

/-- A direct-scheme signature whose recovery always fails. -/
def sigRecoverNone : PackedEthSignature :=
  ⟨fun _ => none⟩

/-- A direct-scheme signature that always recovers account 1. -/
def sigRecoverOne : PackedEthSignature :=
  ⟨fun _ => some 1⟩

/-- A direct-scheme signature that always recovers account 2. -/
def sigRecoverTwo : PackedEthSignature :=
  ⟨fun _ => some 2⟩

/-- A concrete pubkey-change without an embedded signature, passing the
native check. -/
def cpkNoSig : ChangePubKey :=
  { account := 1, nonce := 5, new_pk_hash := [7], eth_signature := none, correct := true }

/-- An authority that authorizes everything and accepts every contract
signature. -/
def oracleYes : EthWatchOracle :=
  ⟨fun _ _ _ => some true, fun _ _ _ => some (Except.ok true)⟩

/-- An authority that denies pubkey-change authorization but accepts every
contract signature. -/
def oracleNo : EthWatchOracle :=
  ⟨fun _ _ _ => some false, fun _ _ _ => some (Except.ok true)⟩

/-- An authority whose reply channels are closed before answering. -/
def oracleClosed : EthWatchOracle :=
  ⟨fun _ _ _ => none, fun _ _ _ => none⟩

/-- Concrete request: an ordinary transaction with no external signature
data. -/
def rPlain : VerifyTxSignatureRequest :=
  { tx := ZkSyncTx.Other { account := 1, correct := true }, eth_sign_data := none }

/-- Concrete request: a signature-less pubkey-change with no external
signature data. -/
def rCpk : VerifyTxSignatureRequest :=
  { tx := ZkSyncTx.ChangePubKey cpkNoSig, eth_sign_data := none }

/-- Concrete request: ordinary transaction with matching direct-scheme
signature data. -/
def rDirectOk : VerifyTxSignatureRequest :=
  { tx := ZkSyncTx.Other { account := 1, correct := true },
    eth_sign_data := some { signature := TxEthSignature.EthereumSignature sigRecoverOne,
                            message := [97] } }

/-- Concrete request: a signature-less pubkey-change that also carries
direct-scheme signature data whose recovery fails. -/
def rCpkDirectBad : VerifyTxSignatureRequest :=
  { tx := ZkSyncTx.ChangePubKey cpkNoSig,
    eth_sign_data := some { signature := TxEthSignature.EthereumSignature sigRecoverNone,
                            message := [97] } }

/-- Concrete request: a signature-less pubkey-change that also carries
direct-scheme signature data recovering the wrong account. -/
def rCpkDirectWrong : VerifyTxSignatureRequest :=
  { tx := ZkSyncTx.ChangePubKey cpkNoSig,
    eth_sign_data := some { signature := TxEthSignature.EthereumSignature sigRecoverTwo,
                            message := [97] } }

/-- Concrete request: ordinary transaction with contract-based signature
data. -/
def rEip1271 : VerifyTxSignatureRequest :=
  { tx := ZkSyncTx.Other { account := 1, correct := true },
    eth_sign_data := some { signature := TxEthSignature.EIP1271Signature [9],
                            message := [97] } }

/-- Concrete request: a signature-less pubkey-change that also carries
contract-based signature data. -/
def rCpkEip1271 : VerifyTxSignatureRequest :=
  { tx := ZkSyncTx.ChangePubKey cpkNoSig,
    eth_sign_data := some { signature := TxEthSignature.EIP1271Signature [9],
                            message := [97] } }

/-- If the delegated-authorization branch either does not apply or is
answered `true`, `verify_eth_signature` reduces to the external-signature
check, with the query trace so far. -/
theorem verify_eth_signature_auth_passes (r : VerifyTxSignatureRequest) (o : EthWatchOracle)
    (hAuth : ∀ change_pk, r.tx = ZkSyncTx.ChangePubKey change_pk →
      change_pk.eth_signature = none →
      o.isPubkeyChangeAuthorized change_pk.account change_pk.nonce change_pk.new_pk_hash
        = some true) :
    ∃ t, verify_eth_signature r o = checkEthSignData r o t := by
  cases hT : r.tx with
  | ChangePubKey change_pk =>
    cases hsig : change_pk.eth_signature with
    | none =>
      refine ⟨[EthWatchRequest.IsPubkeyChangeAuthorized change_pk.account change_pk.nonce
        change_pk.new_pk_hash], ?_⟩
      simp [verify_eth_signature, hT, hsig, hAuth change_pk hT hsig]
    | some s =>
      exact ⟨[], by simp [verify_eth_signature, hT, hsig]⟩
  | Other t =>
    exact ⟨[], by simp [verify_eth_signature, hT]⟩

/-- Outcome of the external-signature check for direct-scheme signature
data: recovery and account comparison. -/
theorem checkEthSignData_direct_fst (r : VerifyTxSignatureRequest) (o : EthWatchOracle)
    (t : List EthWatchRequest) (sd : EthSignData) (ps : PackedEthSignature)
    (h1 : r.eth_sign_data = some sd)
    (h2 : sd.signature = TxEthSignature.EthereumSignature ps) :
    (checkEthSignData r o t).1 =
      match ps.signature_recover_signer sd.message with
      | none => VerifyOutcome.err TxAddError.IncorrectEthSignature
      | some signer_account =>
        if signer_account = r.tx.account then VerifyOutcome.ok ()
        else VerifyOutcome.err TxAddError.IncorrectEthSignature := by
  rcases hrec : ps.signature_recover_signer sd.message with _ | a
  · simp [checkEthSignData, h1, h2, hrec]
  · by_cases hacct : a = r.tx.account <;>
      simp [checkEthSignData, h1, h2, hrec, hacct]

/-- The external-signature check leaves the query trace unchanged on
direct-scheme signature data. -/
theorem checkEthSignData_direct_snd (r : VerifyTxSignatureRequest) (o : EthWatchOracle)
    (t : List EthWatchRequest) (sd : EthSignData) (ps : PackedEthSignature)
    (h1 : r.eth_sign_data = some sd)
    (h2 : sd.signature = TxEthSignature.EthereumSignature ps) :
    (checkEthSignData r o t).2 = t := by
  rcases hrec : ps.signature_recover_signer sd.message with _ | a
  · simp [checkEthSignData, h1, h2, hrec]
  · by_cases hacct : a = r.tx.account <;>
      simp [checkEthSignData, h1, h2, hrec, hacct]

/-- Outcome of the external-signature check for contract-based signature
data: the authority's reply decides. -/
theorem checkEthSignData_eip1271_fst (r : VerifyTxSignatureRequest) (o : EthWatchOracle)
    (t : List EthWatchRequest) (sd : EthSignData) (sig : List Nat)
    (h1 : r.eth_sign_data = some sd)
    (h2 : sd.signature = TxEthSignature.EIP1271Signature sig) :
    (checkEthSignData r o t).1 =
      match o.checkEIP1271Signature r.tx.account
          (ethMessageHeader ++ decimalBytes sd.message.length ++ sd.message) sig with
      | none => VerifyOutcome.fatal "Failed receiving response from eth watch"
      | some (Except.error _) => VerifyOutcome.err TxAddError.EIP1271SignatureVerificationFail
      | some (Except.ok true) => VerifyOutcome.ok ()
      | some (Except.ok false) => VerifyOutcome.err TxAddError.IncorrectTx := by
  rcases hq : o.checkEIP1271Signature r.tx.account
      (ethMessageHeader ++ decimalBytes sd.message.length ++ sd.message) sig with _ | e
  · simp only [checkEthSignData, h1, h2]
    rw [hq]
  · rcases e with e | b
    · simp only [checkEthSignData, h1, h2]
      rw [hq]
    · cases b <;> simp only [checkEthSignData, h1, h2] <;> rw [hq] <;> rfl

/-- On contract-based signature data the external-signature check appends
exactly one `CheckEIP1271Signature` query carrying the wrapped message. -/
theorem checkEthSignData_eip1271_snd (r : VerifyTxSignatureRequest) (o : EthWatchOracle)
    (t : List EthWatchRequest) (sd : EthSignData) (sig : List Nat)
    (h1 : r.eth_sign_data = some sd)
    (h2 : sd.signature = TxEthSignature.EIP1271Signature sig) :
    (checkEthSignData r o t).2 =
      t ++ [EthWatchRequest.CheckEIP1271Signature r.tx.account
        (ethMessageHeader ++ decimalBytes sd.message.length ++ sd.message) sig] := by
  rcases hq : o.checkEIP1271Signature r.tx.account
      (ethMessageHeader ++ decimalBytes sd.message.length ++ sd.message) sig with _ | e
  · simp only [checkEthSignData, h1, h2]
    rw [hq]
  · rcases e with e | b
    · simp only [checkEthSignData, h1, h2]
      rw [hq]
    · cases b <;> simp only [checkEthSignData, h1, h2] <;> rw [hq] <;> rfl

/-- The overall outcome of `VerifiedTx.verify` as a function of the
Ethereum-signature check's outcome: a passing signature check continues
into the native check, errors and fatal faults propagate. -/
theorem verify_outcome_eq (r : VerifyTxSignatureRequest) (o : EthWatchOracle) :
    (VerifiedTx.verify r o).1 =
      match (verify_eth_signature r o).1 with
      | VerifyOutcome.ok _ => nativeOutcome r
      | VerifyOutcome.err e => VerifyOutcome.err e
      | VerifyOutcome.fatal msg => VerifyOutcome.fatal msg := by
  rcases h : verify_eth_signature r o with ⟨out, t⟩
  cases out with
  | ok a =>
    cases hc : r.tx.check_correctness <;>
      simp [VerifiedTx.verify, h, verify_tx_correctness, nativeOutcome, hc]
  | err e => simp [VerifiedTx.verify, h]
  | fatal msg => simp [VerifiedTx.verify, h]

/-- `VerifiedTx.verify` reports exactly the queries issued by the
Ethereum-signature check. -/
theorem verify_trace_eq (r : VerifyTxSignatureRequest) (o : EthWatchOracle) :
    (VerifiedTx.verify r o).2 = (verify_eth_signature r o).2 := by
  rcases h : verify_eth_signature r o with ⟨out, t⟩
  cases out with
  | ok a =>
    cases hc : r.tx.check_correctness <;>
      simp [VerifiedTx.verify, h, verify_tx_correctness, hc]
  | err e => simp [VerifiedTx.verify, h]
  | fatal msg => simp [VerifiedTx.verify, h]

/-- C1: for every verification request whose transaction is not a
pubkey-change lacking an embedded signature and whose external signature
data is `None`, `verify` returns exactly the outcome of the transaction's
native correctness check — `ok` wrapping the transaction if
`check_correctness` passes, `IncorrectTx` if it fails — and issues no
authorization query. -/
theorem verify_no_external_data_is_native_check
    (r : VerifyTxSignatureRequest) (o : EthWatchOracle)
    (h1 : r.eth_sign_data = none)
    (h2 : ∀ change_pk, r.tx = ZkSyncTx.ChangePubKey change_pk →
      change_pk.eth_signature ≠ none) :
    VerifiedTx.verify r o = (nativeOutcome r, []) := by
  have hsd : verify_eth_signature r o = (VerifyOutcome.ok (), []) := by
    cases hT : r.tx with
    | ChangePubKey change_pk =>
      cases hsig : change_pk.eth_signature with
      | none => exact absurd hsig (h2 change_pk hT)
      | some s => simp [verify_eth_signature, hT, hsig, checkEthSignData, h1]
    | Other t => simp [verify_eth_signature, hT, checkEthSignData, h1]
  cases hc : r.tx.check_correctness <;>
    simp [VerifiedTx.verify, hsd, verify_tx_correctness, nativeOutcome, hc]

/-- Witness for C1 at a concrete ordinary transaction with no signature
data: the result is the native check's success and the trace is empty. -/
theorem verify_no_external_data_is_native_check_witness :
    VerifiedTx.verify rPlain oracleNo = (nativeOutcome rPlain, []) :=
  verify_no_external_data_is_native_check rPlain oracleNo rfl
    (fun change_pk h => absurd h (by simp [rPlain]))

/-- C2: for every request whose transaction is a pubkey-change with no
embedded signature, if the authority answers `false` to the
`IsPubkeyChangeAuthorized` query, `verify` returns exactly
`ChangePkNotAuthorized` — whatever the request's external signature data
and the transaction's native correctness — and issues only that query. -/
theorem pubkey_change_unauthorized_yields_change_not_authorized
    (r : VerifyTxSignatureRequest) (o : EthWatchOracle) (change_pk : ChangePubKey)
    (h1 : r.tx = ZkSyncTx.ChangePubKey change_pk)
    (h2 : change_pk.eth_signature = none)
    (h3 : o.isPubkeyChangeAuthorized change_pk.account change_pk.nonce change_pk.new_pk_hash
      = some false) :
    VerifiedTx.verify r o =
      (VerifyOutcome.err TxAddError.ChangePkNotAuthorized,
       [EthWatchRequest.IsPubkeyChangeAuthorized change_pk.account change_pk.nonce
         change_pk.new_pk_hash]) := by
  have hsd : verify_eth_signature r o =
      (VerifyOutcome.err TxAddError.ChangePkNotAuthorized,
       [EthWatchRequest.IsPubkeyChangeAuthorized change_pk.account change_pk.nonce
         change_pk.new_pk_hash]) := by
    simp [verify_eth_signature, h1, h2, h3]
  simp [VerifiedTx.verify, hsd]

/-- Witness for C2 at a concrete signature-less pubkey-change denied by the
authority. -/
theorem pubkey_change_unauthorized_yields_change_not_authorized_witness :
    VerifiedTx.verify rCpk oracleNo =
      (VerifyOutcome.err TxAddError.ChangePkNotAuthorized,
       [EthWatchRequest.IsPubkeyChangeAuthorized cpkNoSig.account cpkNoSig.nonce
         cpkNoSig.new_pk_hash]) :=
  pubkey_change_unauthorized_yields_change_not_authorized rCpk oracleNo cpkNoSig rfl rfl rfl

/-- C6: on every request on which verification succeeds, the returned
`VerifiedTx` wraps the request's transaction together with the request's
(possibly absent) external signature data, and `into_inner` returns
exactly that pair. -/
theorem verified_tx_wraps_request_fields
    (r : VerifyTxSignatureRequest) (o : EthWatchOracle) (v : VerifiedTx)
    (h : (VerifiedTx.verify r o).1 = VerifyOutcome.ok v) :
    v.into_inner = { tx := r.tx, eth_sign_data := r.eth_sign_data } := by
  rw [verify_outcome_eq] at h
  rcases hsd : (verify_eth_signature r o).1 with a | e | msg
  · rw [hsd] at h
    simp only [nativeOutcome] at h
    cases hc : r.tx.check_correctness
    · rw [hc] at h
      simp at h
    · rw [hc] at h
      simp only [if_pos] at h
      cases h
      rfl
  · rw [hsd] at h
    simp at h
  · rw [hsd] at h
    simp at h

/-- Witness for C6 at a concrete successful verification. -/
theorem verified_tx_wraps_request_fields_witness :
    VerifiedTx.into_inner ⟨{ tx := rPlain.tx, eth_sign_data := rPlain.eth_sign_data }⟩ =
      { tx := rPlain.tx, eth_sign_data := rPlain.eth_sign_data } :=
  verified_tx_wraps_request_fields rPlain oracleYes
    ⟨{ tx := rPlain.tx, eth_sign_data := rPlain.eth_sign_data }⟩ rfl

/-- C9: `verify` does not mutate the verification request: it reads the
request through a shared reference and hands only a clone of the
transaction to `verify_tx_correctness`, so the request's `tx` and
`eth_sign_data` fields are the same before and after verification. -/
theorem verify_leaves_request_unchanged
    (r : VerifyTxSignatureRequest) (o : EthWatchOracle) :
    (requestAfterVerify r o).tx = r.tx ∧
    (requestAfterVerify r o).eth_sign_data = r.eth_sign_data :=
  ⟨rfl, rfl⟩

/-- Counterexample to C3 as stated: a request carrying direct-scheme
signature data whose recovery fails, on a signature-less pubkey-change the
authority refuses — `verify` returns `ChangePkNotAuthorized`, not the
`IncorrectEthSignature` the claim requires. -/
theorem direct_scheme_claim_fails_on_unauthorized_pubkey_change :
    sigRecoverNone.signature_recover_signer [97] = none ∧
    (VerifiedTx.verify rCpkDirectBad oracleNo).1 =
      VerifyOutcome.err TxAddError.ChangePkNotAuthorized ∧
    (VerifyOutcome.err TxAddError.ChangePkNotAuthorized : VerifyOutcome VerifiedTx) ≠
      VerifyOutcome.err TxAddError.IncorrectEthSignature := by
  refine ⟨rfl, rfl, fun h => ?_⟩
  exact absurd (VerifyOutcome.err.inj h) (by decide)

/-- C3 as amended: provided the delegated-authorization branch does not
abort first (the transaction is not a pubkey-change lacking an embedded
signature, or the authority authorizes it), a request carrying
direct-scheme signature data fails with `IncorrectEthSignature` when
recovery fails or the recovered account differs from the transaction's
account, and otherwise proceeds to the native correctness check. -/
theorem direct_scheme_errors_after_auth_branch
    (r : VerifyTxSignatureRequest) (o : EthWatchOracle) (sd : EthSignData)
    (ps : PackedEthSignature)
    (hAuth : ∀ change_pk, r.tx = ZkSyncTx.ChangePubKey change_pk →
      change_pk.eth_signature = none →
      o.isPubkeyChangeAuthorized change_pk.account change_pk.nonce change_pk.new_pk_hash
        = some true)
    (h1 : r.eth_sign_data = some sd)
    (h2 : sd.signature = TxEthSignature.EthereumSignature ps) :
    (VerifiedTx.verify r o).1 =
      match ps.signature_recover_signer sd.message with
      | none => VerifyOutcome.err TxAddError.IncorrectEthSignature
      | some signer_account =>
        if signer_account = r.tx.account then nativeOutcome r
        else VerifyOutcome.err TxAddError.IncorrectEthSignature := by
  obtain ⟨t, ht⟩ := verify_eth_signature_auth_passes r o hAuth
  rw [verify_outcome_eq, ht, checkEthSignData_direct_fst r o t sd ps h1 h2]
  rcases hrec : ps.signature_recover_signer sd.message with _ | a
  · rfl
  · by_cases hacct : a = r.tx.account <;> simp [hacct]

/-- Witness for the amended C3 at a concrete ordinary transaction whose
direct-scheme signature recovers the declared account. -/
theorem direct_scheme_errors_after_auth_branch_witness :
    (VerifiedTx.verify rDirectOk oracleNo).1 =
      match sigRecoverOne.signature_recover_signer [97] with
      | none => VerifyOutcome.err TxAddError.IncorrectEthSignature
      | some signer_account =>
        if signer_account = rDirectOk.tx.account then nativeOutcome rDirectOk
        else VerifyOutcome.err TxAddError.IncorrectEthSignature :=
  direct_scheme_errors_after_auth_branch rDirectOk oracleNo
    { signature := TxEthSignature.EthereumSignature sigRecoverOne, message := [97] }
    sigRecoverOne (fun change_pk h => absurd h (by simp [rDirectOk])) rfl rfl

/-- Counterexample to C4 as stated: a request carrying contract-based
signature data on a signature-less pubkey-change the authority refuses —
the authority would answer `Ok(true)` to the contract-signature query and
the native check passes, yet `verify` returns `ChangePkNotAuthorized`
instead of proceeding past the external-signature branch. -/
theorem eip1271_claim_fails_on_unauthorized_pubkey_change :
    oracleNo.checkEIP1271Signature rCpkEip1271.tx.account
      (ethMessageHeader ++ decimalBytes ([97] : List Nat).length ++ [97]) [9]
      = some (Except.ok true) ∧
    rCpkEip1271.tx.check_correctness = true ∧
    (VerifiedTx.verify rCpkEip1271 oracleNo).1 =
      VerifyOutcome.err TxAddError.ChangePkNotAuthorized ∧
    (VerifyOutcome.err TxAddError.ChangePkNotAuthorized : VerifyOutcome VerifiedTx) ≠
      nativeOutcome rCpkEip1271 := by
  refine ⟨rfl, rfl, rfl, fun h => ?_⟩
  rw [show nativeOutcome rCpkEip1271 =
    VerifyOutcome.ok ⟨{ tx := rCpkEip1271.tx, eth_sign_data := rCpkEip1271.eth_sign_data }⟩
    from rfl] at h
  cases h

/-- C4 as amended: provided the delegated-authorization branch does not
abort first, on a request carrying contract-based signature data the
authority's reply determines the outcome: `Ok(true)` proceeds to the
native correctness check, `Ok(false)` yields `IncorrectTx`, and an
authority error yields `EIP1271SignatureVerificationFail` (never the raw
error); a closed reply channel is the fatal fault. -/
theorem eip1271_reply_determines_outcome_after_auth_branch
    (r : VerifyTxSignatureRequest) (o : EthWatchOracle) (sd : EthSignData) (sig : List Nat)
    (hAuth : ∀ change_pk, r.tx = ZkSyncTx.ChangePubKey change_pk →
      change_pk.eth_signature = none →
      o.isPubkeyChangeAuthorized change_pk.account change_pk.nonce change_pk.new_pk_hash
        = some true)
    (h1 : r.eth_sign_data = some sd)
    (h2 : sd.signature = TxEthSignature.EIP1271Signature sig) :
    (VerifiedTx.verify r o).1 =
      match o.checkEIP1271Signature r.tx.account
          (ethMessageHeader ++ decimalBytes sd.message.length ++ sd.message) sig with
      | none => VerifyOutcome.fatal "Failed receiving response from eth watch"
      | some (Except.error _) => VerifyOutcome.err TxAddError.EIP1271SignatureVerificationFail
      | some (Except.ok true) => nativeOutcome r
      | some (Except.ok false) => VerifyOutcome.err TxAddError.IncorrectTx := by
  obtain ⟨t, ht⟩ := verify_eth_signature_auth_passes r o hAuth
  rw [verify_outcome_eq, ht, checkEthSignData_eip1271_fst r o t sd sig h1 h2]
  rcases hq : o.checkEIP1271Signature r.tx.account
      (ethMessageHeader ++ decimalBytes sd.message.length ++ sd.message) sig with _ | e
  · rfl
  · rcases e with e | b
    · rfl
    · cases b <;> rfl

/-- Witness for the amended C4 at a concrete ordinary transaction with
contract-based signature data the authority accepts. -/
theorem eip1271_reply_determines_outcome_after_auth_branch_witness :
    (VerifiedTx.verify rEip1271 oracleYes).1 =
      match oracleYes.checkEIP1271Signature rEip1271.tx.account
          (ethMessageHeader ++ decimalBytes ([97] : List Nat).length ++ [97]) [9] with
      | none => VerifyOutcome.fatal "Failed receiving response from eth watch"
      | some (Except.error _) => VerifyOutcome.err TxAddError.EIP1271SignatureVerificationFail
      | some (Except.ok true) => nativeOutcome rEip1271
      | some (Except.ok false) => VerifyOutcome.err TxAddError.IncorrectTx :=
  eip1271_reply_determines_outcome_after_auth_branch rEip1271 oracleYes
    { signature := TxEthSignature.EIP1271Signature [9], message := [97] } [9]
    (fun change_pk h => absurd h (by simp [rEip1271])) rfl rfl

/-- C10: delegated authorization does not bypass the external-signature
check: on a signature-less pubkey-change that also carries external
signature data (either scheme), even when the authority authorizes the
change, the external-signature branch still runs — `verify`'s outcome is
exactly that branch's outcome, continued into the native check only when
the branch passes — and in particular any failure of that branch makes
`verify` return that branch's error. -/
theorem auth_approval_does_not_bypass_signature_check
    (r : VerifyTxSignatureRequest) (o : EthWatchOracle) (change_pk : ChangePubKey)
    (sd : EthSignData)
    (h1 : r.tx = ZkSyncTx.ChangePubKey change_pk)
    (h2 : change_pk.eth_signature = none)
    (h3 : o.isPubkeyChangeAuthorized change_pk.account change_pk.nonce change_pk.new_pk_hash
      = some true)
    (h4 : r.eth_sign_data = some sd) :
    ((VerifiedTx.verify r o).1 =
      match (checkEthSignData r o
          [EthWatchRequest.IsPubkeyChangeAuthorized change_pk.account change_pk.nonce
            change_pk.new_pk_hash]).1 with
      | VerifyOutcome.ok _ => nativeOutcome r
      | VerifyOutcome.err e => VerifyOutcome.err e
      | VerifyOutcome.fatal msg => VerifyOutcome.fatal msg) ∧
    ∀ e, (checkEthSignData r o
        [EthWatchRequest.IsPubkeyChangeAuthorized change_pk.account change_pk.nonce
          change_pk.new_pk_hash]).1 = VerifyOutcome.err e →
      (VerifiedTx.verify r o).1 = VerifyOutcome.err e := by
  have he : verify_eth_signature r o =
      checkEthSignData r o
        [EthWatchRequest.IsPubkeyChangeAuthorized change_pk.account change_pk.nonce
          change_pk.new_pk_hash] := by
    simp [verify_eth_signature, h1, h2, h3]
  constructor
  · rw [verify_outcome_eq, he]
  · intro e hbranch
    rw [verify_outcome_eq, he, hbranch]

/-- Witness for C10: an authorized signature-less pubkey-change for account
1 carrying direct-scheme signature data whose recovery yields account 2,
so the still-running external-signature branch fails and `verify` returns
its `IncorrectEthSignature`. -/
theorem auth_approval_does_not_bypass_signature_check_witness :
    ((VerifiedTx.verify rCpkDirectWrong oracleYes).1 =
      match (checkEthSignData rCpkDirectWrong oracleYes
          [EthWatchRequest.IsPubkeyChangeAuthorized cpkNoSig.account cpkNoSig.nonce
            cpkNoSig.new_pk_hash]).1 with
      | VerifyOutcome.ok _ => nativeOutcome rCpkDirectWrong
      | VerifyOutcome.err e => VerifyOutcome.err e
      | VerifyOutcome.fatal msg => VerifyOutcome.fatal msg) ∧
    ∀ e, (checkEthSignData rCpkDirectWrong oracleYes
        [EthWatchRequest.IsPubkeyChangeAuthorized cpkNoSig.account cpkNoSig.nonce
          cpkNoSig.new_pk_hash]).1 = VerifyOutcome.err e →
      (VerifiedTx.verify rCpkDirectWrong oracleYes).1 = VerifyOutcome.err e :=
  auth_approval_does_not_bypass_signature_check rCpkDirectWrong oracleYes cpkNoSig
    { signature := TxEthSignature.EthereumSignature sigRecoverTwo, message := [97] }
    rfl rfl rfl rfl

/-- C5: every `CheckEIP1271Signature` query issued while verifying a
request with contract-based signature data over message `m` carries the
transaction's account, exactly the bytes of
`"\x19Ethereum Signed Message:\n"` followed by the decimal byte-length of
`m` followed by `m`, and the raw signature bytes. -/
theorem eip1271_query_message_is_wrapped_message
    (r : VerifyTxSignatureRequest) (o : EthWatchOracle) (sd : EthSignData) (sig : List Nat)
    (a : Nat) (m s : List Nat)
    (h1 : r.eth_sign_data = some sd)
    (h2 : sd.signature = TxEthSignature.EIP1271Signature sig)
    (hmem : EthWatchRequest.CheckEIP1271Signature a m s ∈ (VerifiedTx.verify r o).2) :
    a = r.tx.account ∧
    m = ethMessageHeader ++ decimalBytes sd.message.length ++ sd.message ∧
    s = sig := by
  rw [verify_trace_eq] at hmem
  have hcanon : ∀ t0 : List EthWatchRequest,
      EthWatchRequest.CheckEIP1271Signature a m s ∈ (checkEthSignData r o t0).2 →
      EthWatchRequest.CheckEIP1271Signature a m s ∈ t0 ∨
      (a = r.tx.account ∧
       m = ethMessageHeader ++ decimalBytes sd.message.length ++ sd.message ∧
       s = sig) := by
    intro t0 hm
    rw [checkEthSignData_eip1271_snd r o t0 sd sig h1 h2] at hm
    rcases List.mem_append.mp hm with hmm | hmm
    · exact Or.inl hmm
    · have heq := List.mem_singleton.mp hmm
      injection heq with ha hmsg hs
      exact Or.inr ⟨ha, hmsg, hs⟩
  cases hT : r.tx with
  | ChangePubKey change_pk =>
    cases hsig : change_pk.eth_signature with
    | none =>
      rcases hq : o.isPubkeyChangeAuthorized change_pk.account change_pk.nonce
          change_pk.new_pk_hash with _ | b
      · rw [show (verify_eth_signature r o).2 =
            [EthWatchRequest.IsPubkeyChangeAuthorized change_pk.account change_pk.nonce
              change_pk.new_pk_hash] from by simp [verify_eth_signature, hT, hsig, hq]] at hmem
        simp at hmem
      · cases b
        · rw [show (verify_eth_signature r o).2 =
              [EthWatchRequest.IsPubkeyChangeAuthorized change_pk.account change_pk.nonce
                change_pk.new_pk_hash] from by simp [verify_eth_signature, hT, hsig, hq]] at hmem
          simp at hmem
        · have he : verify_eth_signature r o =
              checkEthSignData r o [EthWatchRequest.IsPubkeyChangeAuthorized change_pk.account
                change_pk.nonce change_pk.new_pk_hash] := by
            simp [verify_eth_signature, hT, hsig, hq]
          rw [he] at hmem
          rcases hcanon _ hmem with hmm | hmm
          · simp at hmm
          · rw [hT] at hmm
            exact hmm
    | some s0 =>
      have he : verify_eth_signature r o = checkEthSignData r o [] := by
        simp [verify_eth_signature, hT, hsig]
      rw [he] at hmem
      rcases hcanon _ hmem with hmm | hmm
      · simp at hmm
      · rw [hT] at hmm
        exact hmm
  | Other t0 =>
    have he : verify_eth_signature r o = checkEthSignData r o [] := by
      simp [verify_eth_signature, hT]
    rw [he] at hmem
    rcases hcanon _ hmem with hmm | hmm
    · simp at hmm
    · rw [hT] at hmm
      exact hmm

/-- Witness for C5: the query issued for a concrete one-byte message
carries exactly the wrapped message bytes. -/
theorem eip1271_query_message_is_wrapped_message_witness :
    1 = rEip1271.tx.account ∧
    ethMessageHeader ++ decimalBytes ([97] : List Nat).length ++ [97] =
      ethMessageHeader ++ decimalBytes ([97] : List Nat).length ++ [97] ∧
    ([9] : List Nat) = [9] :=
  eip1271_query_message_is_wrapped_message rEip1271 oracleYes
    { signature := TxEthSignature.EIP1271Signature [9], message := [97] } [9]
    1 (ethMessageHeader ++ decimalBytes ([97] : List Nat).length ++ [97]) [9]
    rfl rfl (by decide)

/-- C7: for either authority round-trip, a reply channel closed before an
answer arrives makes the verifier hit a fatal fault: `verify`'s outcome is
`fatal`, and nothing — in particular no typed verification error — is
delivered on the request's reply channel even when the caller still holds
it. -/
theorem closed_authority_channel_is_fatal
    (r : VerifyTxSignatureRequest) (o : EthWatchOracle)
    (h : (∃ change_pk, r.tx = ZkSyncTx.ChangePubKey change_pk ∧
            change_pk.eth_signature = none ∧
            o.isPubkeyChangeAuthorized change_pk.account change_pk.nonce change_pk.new_pk_hash
              = none)
       ∨ ((∀ change_pk, r.tx = ZkSyncTx.ChangePubKey change_pk →
             change_pk.eth_signature = none →
             o.isPubkeyChangeAuthorized change_pk.account change_pk.nonce change_pk.new_pk_hash
               = some true)
          ∧ ∃ sd sig, r.eth_sign_data = some sd ∧
              sd.signature = TxEthSignature.EIP1271Signature sig ∧
              o.checkEIP1271Signature r.tx.account
                (ethMessageHeader ++ decimalBytes sd.message.length ++ sd.message) sig
                = none)) :
    (∃ msg, (VerifiedTx.verify r o).1 = VerifyOutcome.fatal msg) ∧
    taskDelivery o { request := r, receiverAlive := true } = none := by
  have hfatal : ∃ msg, (VerifiedTx.verify r o).1 = VerifyOutcome.fatal msg := by
    rcases h with ⟨change_pk, hT, hsig, hq⟩ | ⟨hAuth, sd, sig, h1, h2, hq⟩
    · refine ⟨"Err response from eth watch", ?_⟩
      rw [verify_outcome_eq]
      rw [show (verify_eth_signature r o).1 =
        VerifyOutcome.fatal "Err response from eth watch" from by
          simp [verify_eth_signature, hT, hsig, hq]]
    · refine ⟨"Failed receiving response from eth watch", ?_⟩
      obtain ⟨t, ht⟩ := verify_eth_signature_auth_passes r o hAuth
      rw [verify_outcome_eq, ht, checkEthSignData_eip1271_fst r o t sd sig h1 h2, hq]
  refine ⟨hfatal, ?_⟩
  obtain ⟨msg, hm⟩ := hfatal
  simp [taskDelivery, hm]

/-- Witness for C7: a signature-less pubkey-change against an authority
whose reply channels are closed. -/
theorem closed_authority_channel_is_fatal_witness :
    (∃ msg, (VerifiedTx.verify rCpk oracleClosed).1 = VerifyOutcome.fatal msg) ∧
    taskDelivery oracleClosed { request := rCpk, receiverAlive := true } = none :=
  closed_authority_channel_is_fatal rCpk oracleClosed
    (Or.inl ⟨cpkNoSig, rfl, rfl, rfl⟩)

/-- C8: a request whose reply-receiving end was dropped before completion
gets a no-op delivery — the send failure is ignored, nothing is delivered
and nothing is retried — and the worker keeps processing every request
before and after it unchanged. -/
theorem dropped_receiver_delivery_noop_worker_continues
    (o : EthWatchOracle) (pre post : List WorkerRequest) (d : WorkerRequest)
    (h : d.receiverAlive = false) :
    checker_routine o (pre ++ d :: post) =
      checker_routine o pre ++ none :: checker_routine o post := by
  have hd : taskDelivery o d = none := by
    rcases hv : (VerifiedTx.verify d.request o).1 with v | e | msg <;>
      simp [taskDelivery, hv, h]
  induction pre with
  | nil => simp [checker_routine, hd]
  | cons wr rest ih => simp [checker_routine, ih]

/-- Witness for C8: a dropped-receiver request between two live ones is
answered with a no-op while its successor is still served. -/
theorem dropped_receiver_delivery_noop_worker_continues_witness :
    checker_routine oracleYes
        ([{ request := rPlain, receiverAlive := true }] ++
          { request := rCpk, receiverAlive := false } ::
            [{ request := rPlain, receiverAlive := true }]) =
      checker_routine oracleYes [{ request := rPlain, receiverAlive := true }] ++
        none :: checker_routine oracleYes [{ request := rPlain, receiverAlive := true }] :=
  dropped_receiver_delivery_noop_worker_continues oracleYes
    [{ request := rPlain, receiverAlive := true }]
    [{ request := rPlain, receiverAlive := true }]
    { request := rCpk, receiverAlive := false } rfl
